import Mathlib

/-!
Verification of the diveops-deco-validate tool (src/tools/diveops-deco-validate/src/main.rs).

The tool is a thin glue layer: it reads a JSON dive profile from stdin, hashes
the raw bytes, validates the payload, drives a Buehlmann decompression model
(the external dive-deco crate) segment by segment, and serializes a summary.

Embedding conventions:
* `f64` values carried by the glue are embedded as `ℚ`; the glue performs only
  comparisons, `+`, `*`, `/`, `max` and rounding casts on them, all exact here.
* The decompression core (tissue model, ceiling, NDL, deco scheduler) lives in
  the external crate, not in this repository's sources; the glue is verified
  against an arbitrary core packaged as a `Core` structure.  Where a claim
  needs the core itself (the zero-duration no-op), the tissue update is
  modelled from the spec's Schreiner equation over `ℝ`.
* Rust saturating casts (`as usize`, `as u8` on `f64`) are embedded explicitly;
  `f64::round` (round half away from zero) is `roundHalfAway`.
* SHA-256 is embedded in full over byte lists (`ℕ` below 256), so digests of
  concrete inputs are computable inside the logic.
-/

namespace DiveOps

/-- Input gas mix as deserialized from JSON (struct InputGas in main.rs). -/
structure InputGas where
  o2 : ℚ
  he : ℚ
deriving DecidableEq

/-- One dive segment as deserialized from JSON (struct InputSegment). -/
structure InputSegment where
  depth_m : ℚ
  duration_min : ℚ
deriving DecidableEq

/-- The full stdin payload (struct InputPayload). -/
structure InputPayload where
  segments : List InputSegment
  gas : InputGas
  gf_low : ℚ
  gf_high : ℚ
deriving DecidableEq

/-- One emitted stop (struct OutputStop). -/
structure OutputStop where
  depth_m : ℚ
  duration_min : ℚ
deriving DecidableEq

/-- Stage tag of the deco schedule (DecoStageType of the dive-deco crate; the
glue keeps only DecoStop stages, discarding ascent stages). -/
inductive DecoStageType where
  | Ascent : DecoStageType
  | DecoStop : DecoStageType
deriving DecidableEq

/-- One stage of the computed schedule (DecoStage of the dive-deco crate):
its tag, start and end depth in meters, and duration in seconds. -/
structure DecoStage where
  stage_type : DecoStageType
  start_depth : ℚ
  end_depth : ℚ
  duration : ℕ
deriving DecidableEq

/-- Result of the deco scheduler (struct Deco of the dive-deco crate):
the stage list and the total time to surface in seconds. -/
structure Deco where
  deco_stages : List DecoStage
  tts : ℕ
deriving DecidableEq

/-- A gas mix as handed to the core (Gas::new(o2, he)). -/
structure Gas where
  o2 : ℚ
  he : ℚ
deriving DecidableEq

/-- The serialized output payload (struct OutputPayload).  The three static
string fields are constants in the source and are reproduced as such. -/
structure OutputPayload where
  tool : String
  tool_version : String
  model : String
  gf_low : ℚ
  gf_high : ℚ
  ceiling_m : ℚ
  tts_min : ℚ
  ndl_min : Option ℕ
  deco_required : Bool
  stops : List OutputStop
  max_depth_m : ℚ
  runtime_min : ℚ
  input_hash : String
  warnings : List String
  error : Option String
deriving DecidableEq

/-- Rust f64::round: round half away from zero. -/
def roundHalfAway (q : ℚ) : ℤ :=
  if 0 ≤ q then ⌊q + 1/2⌋ else -⌊-q + 1/2⌋

/-- The glue's minutes-to-seconds conversion for one segment,
`(seg.duration_min * 60.0).round() as usize`: a Rust float-to-usize cast
saturates, so negative values clamp to 0. -/
def secondsOfSegment (durationMin : ℚ) : ℕ :=
  (roundHalfAway (durationMin * 60)).toNat

/-- The glue's gradient-factor conversion, `(gf * 100.0).round() as u8`:
the float-to-u8 cast saturates into [0, 255]. -/
def gfPercent (g : ℚ) : ℕ :=
  min (roundHalfAway (g * 100)).toNat 255

/-- The decompression core as the glue consumes it: model construction from
gradient-factor percents, the per-segment step (depth in meters, duration in
seconds, gas), and the ceiling / NDL / deco-schedule queries.  The glue is
verified for an arbitrary core of this shape. -/
structure Core (σ : Type) where
  init : ℕ → ℕ → σ
  step : σ → ℚ → ℕ → Gas → σ
  ceiling : σ → ℚ
  ndl : σ → ℕ
  deco : σ → List Gas → Deco

/-- The gas mix the glue builds from the payload (Gas::new(payload.gas.o2,
payload.gas.he)). -/
def gasOf (p : InputPayload) : Gas :=
  ⟨p.gas.o2, p.gas.he⟩

/-- The (depth, seconds) argument pairs the glue feeds to model.step, one per
input segment, in input order (the for-loop over payload.segments). -/
def stepCalls (p : InputPayload) : List (ℚ × ℕ) :=
  p.segments.map fun s => (s.depth_m, secondsOfSegment s.duration_min)

/-- The model state after the glue has stepped every segment, starting from a
model configured with the converted gradient factors. -/
def finalState {σ : Type} (core : Core σ) (p : InputPayload) : σ :=
  p.segments.foldl
    (fun m seg => core.step m seg.depth_m (secondsOfSegment seg.duration_min) (gasOf p))
    (core.init (gfPercent p.gf_low) (gfPercent p.gf_high))

/-- The source's stage filter `matches!(stage.stage_type, DecoStageType::DecoStop)`. -/
def isDecoStopStage (stg : DecoStage) : Bool :=
  match stg.stage_type with
  | DecoStageType.DecoStop => true
  | _ => false

/-- The map from a kept stage to an output stop: start depth in meters,
duration converted from seconds to minutes. -/
def stopOfStage (stg : DecoStage) : OutputStop :=
  ⟨stg.start_depth, (stg.duration : ℚ) / 60⟩

/-- The post-validation computation of main (lines 103-180): metrics from the
segments, gradient-factor conversion, segment stepping, ceiling, NDL with the
999-minute cap, deco schedule, stop filtering, and assembly of the output. -/
def computeOutput {σ : Type} (core : Core σ) (p : InputPayload) (inputHash : String) :
    OutputPayload :=
  let max_depth_m := p.segments.foldl (fun acc s => max acc s.depth_m) 0
  let runtime_min := (p.segments.map fun s => s.duration_min).sum
  let st := finalState core p
  let ceiling_m := core.ceiling st
  let deco_required : Bool := decide (ceiling_m > 0)
  let ndl_min : Option ℕ :=
    if deco_required then none
    else if core.ndl st > 999 then some 999 else some (core.ndl st)
  let d := core.deco st [gasOf p]
  let tts_min : ℚ := (d.tts : ℚ) / 60
  let stops :=
    ((d.deco_stages.filter isDecoStopStage).filter
        fun stg => decide (stg.duration > 0)).map stopOfStage
  { tool := "diveops-deco-validate"
    tool_version := "0.1.0"
    model := "Bühlmann ZHL-16C"
    gf_low := p.gf_low
    gf_high := p.gf_high
    ceiling_m := ceiling_m
    tts_min := tts_min
    ndl_min := ndl_min
    deco_required := deco_required
    stops := stops
    max_depth_m := max_depth_m
    runtime_min := runtime_min
    input_hash := inputHash
    warnings := []
    error := none }

/-- The stop list as the spec describes it, in one pass: keep exactly the
deco-stop stages of positive duration, in schedule order, each as its start
depth and its duration in minutes. -/
def specStops (stages : List DecoStage) : List OutputStop :=
  stages.filterMap fun stg =>
    if stg.stage_type = DecoStageType.DecoStop ∧ 0 < stg.duration
    then some (stopOfStage stg) else none

/-- Observable result of one process run: the --version fast path, a failure
exit with its code, or the success output (printed JSON, exit 0). -/
inductive ProgResult where
  | versionOut : ProgResult
  | exitWith : ℕ → ProgResult
  | success : OutputPayload → ProgResult
deriving DecidableEq

/-- The process exit code of a run. -/
def exitCode : ProgResult → ℕ
  | ProgResult.exitWith n => n
  | _ => 0

/-- Whether a run printed a success payload. -/
def isSuccess : ProgResult → Bool
  | ProgResult.success _ => true
  | _ => false

/-- The --version argument test: `args.len() == 2 && args[1] == "--version"`. -/
def versionRequested (args : List String) : Prop :=
  args.length = 2 ∧ args.getD 1 "" = "--version"

instance (args : List String) : Decidable (versionRequested args) :=
  inferInstanceAs (Decidable (_ ∧ _))

end DiveOps

namespace Sha256

/-- The 32-bit modulus of SHA-256 word arithmetic. -/
def M32 : ℕ := 4294967296

/-- Right rotation of a 32-bit word. -/
def rotr (n x : ℕ) : ℕ := ((x >>> n) ||| (x <<< (32 - n))) % M32

/-- Round function Sigma0. -/
def bigS0 (x : ℕ) : ℕ := rotr 2 x ^^^ rotr 13 x ^^^ rotr 22 x

/-- Round function Sigma1. -/
def bigS1 (x : ℕ) : ℕ := rotr 6 x ^^^ rotr 11 x ^^^ rotr 25 x

/-- Schedule function sigma0. -/
def smallS0 (x : ℕ) : ℕ := rotr 7 x ^^^ rotr 18 x ^^^ (x >>> 3)

/-- Schedule function sigma1. -/
def smallS1 (x : ℕ) : ℕ := rotr 17 x ^^^ rotr 19 x ^^^ (x >>> 10)

/-- Choice function (the complement is taken within 32 bits). -/
def chf (x y z : ℕ) : ℕ := (x &&& y) ^^^ ((x ^^^ 4294967295) &&& z)

/-- Majority function. -/
def majf (x y z : ℕ) : ℕ := (x &&& y) ^^^ (x &&& z) ^^^ (y &&& z)

/-- The 64 SHA-256 round constants. -/
def shaK : List ℕ :=
  [1116352408, 1899447441, 3049323471, 3921009573, 961987163, 1508970993,
   2453635748, 2870763221, 3624381080, 310598401, 607225278, 1426881987,
   1925078388, 2162078206, 2614888103, 3248222580, 3835390401, 4022224774,
   264347078, 604807628, 770255983, 1249150122, 1555081692, 1996064986,
   2554220882, 2821834349, 2952996808, 3210313671, 3336571891, 3584528711,
   113926993, 338241895, 666307205, 773529912, 1294757372, 1396182291,
   1695183700, 1986661051, 2177026350, 2456956037, 2730485921, 2820302411,
   3259730800, 3345764771, 3516065817, 3600352804, 4094571909, 275423344,
   430227734, 506948616, 659060556, 883997877, 958139571, 1322822218,
   1537002063, 1747873779, 1955562222, 2024104815, 2227730452, 2361852424,
   2428436474, 2756734187, 3204031479, 3329325298]

/-- The initial SHA-256 state. -/
def shaH0 : List ℕ :=
  [1779033703, 3144134277, 1013904242, 2773480762,
   1359893119, 2600822924, 528734635, 1541459225]

/-- The 8-byte big-endian encoding of a 64-bit length. -/
def lenBytes (n : ℕ) : List ℕ :=
  [(n >>> 56) % 256, (n >>> 48) % 256, (n >>> 40) % 256, (n >>> 32) % 256,
   (n >>> 24) % 256, (n >>> 16) % 256, (n >>> 8) % 256, n % 256]

/-- SHA-256 message padding: 0x80, zeros to 56 mod 64, then the bit length. -/
def shaPad (msg : List ℕ) : List ℕ :=
  let L := msg.length
  let zeros := (119 - (L % 64)) % 64
  msg ++ 128 :: List.replicate zeros 0 ++ lenBytes (8 * L)

/-- Split a padded message into 64-byte blocks (fuel-driven so that it reduces
in the kernel; the fuel is instantiated with the list length). -/
def toBlocks : ℕ → List ℕ → List (List ℕ)
  | 0, _ => []
  | _, [] => []
  | fuel+1, l => l.take 64 :: toBlocks fuel (l.drop 64)

/-- The 16 initial 32-bit schedule words of one block, big-endian. -/
def wordsOfBlock (b : List ℕ) : List ℕ :=
  (List.range 16).map fun i =>
    (b.getD (4*i) 0 <<< 24) ||| (b.getD (4*i+1) 0 <<< 16) |||
      (b.getD (4*i+2) 0 <<< 8) ||| b.getD (4*i+3) 0

/-- Extend the schedule by the given number of words (48 for SHA-256). -/
def extendW : ℕ → List ℕ → List ℕ
  | 0, ws => ws
  | fuel+1, ws =>
    let n := ws.length
    extendW fuel (ws ++ [(smallS1 (ws.getD (n-2) 0) + ws.getD (n-7) 0 +
      smallS0 (ws.getD (n-15) 0) + ws.getD (n-16) 0) % M32])

/-- The eight working variables of the compression loop. -/
structure Work8 where
  a : ℕ
  b : ℕ
  c : ℕ
  d : ℕ
  e : ℕ
  f : ℕ
  g : ℕ
  h : ℕ

/-- One compression round. -/
def roundStep (st : Work8) (kw : ℕ × ℕ) : Work8 :=
  let t1 := (st.h + bigS1 st.e + chf st.e st.f st.g + kw.1 + kw.2) % M32
  let t2 := (bigS0 st.a + majf st.a st.b st.c) % M32
  ⟨(t1 + t2) % M32, st.a, st.b, st.c, (st.d + t1) % M32, st.e, st.f, st.g⟩

/-- Compress one 64-byte block into the running state. -/
def compress (h : List ℕ) (block : List ℕ) : List ℕ :=
  let w := extendW 48 (wordsOfBlock block)
  let st := (shaK.zip w).foldl roundStep
    ⟨h.getD 0 0, h.getD 1 0, h.getD 2 0, h.getD 3 0,
     h.getD 4 0, h.getD 5 0, h.getD 6 0, h.getD 7 0⟩
  [(h.getD 0 0 + st.a) % M32, (h.getD 1 0 + st.b) % M32, (h.getD 2 0 + st.c) % M32,
   (h.getD 3 0 + st.d) % M32, (h.getD 4 0 + st.e) % M32, (h.getD 5 0 + st.f) % M32,
   (h.getD 6 0 + st.g) % M32, (h.getD 7 0 + st.h) % M32]

/-- The four big-endian bytes of one state word. -/
def wordBytes (w : ℕ) : List ℕ :=
  [(w >>> 24) % 256, (w >>> 16) % 256, (w >>> 8) % 256, w % 256]

/-- The SHA-256 digest (32 bytes) of a byte sequence. -/
def sha256Bytes (msg : List ℕ) : List ℕ :=
  let padded := shaPad msg
  (((toBlocks padded.length padded).foldl compress shaH0).map wordBytes).flatten

/-- Lowercase hex digit of a value below 16. -/
def hexChar (n : ℕ) : Char :=
  if n < 10 then Char.ofNat (48 + n) else Char.ofNat (87 + n)

/-- Lowercase hex encoding of a byte sequence (the hex crate's default). -/
def hexOfBytes (bs : List ℕ) : String :=
  String.mk ((bs.map fun b => [hexChar (b / 16), hexChar (b % 16)]).flatten)

/-- The UTF-8 encoding of one code point. -/
def utf8EncChar (c : ℕ) : List ℕ :=
  if c < 128 then [c]
  else if c < 2048 then [192 ||| (c >>> 6), 128 ||| (c &&& 63)]
  else if c < 65536 then
    [224 ||| (c >>> 12), 128 ||| ((c >>> 6) &&& 63), 128 ||| (c &&& 63)]
  else
    [240 ||| (c >>> 18), 128 ||| ((c >>> 12) &&& 63),
     128 ||| ((c >>> 6) &&& 63), 128 ||| (c &&& 63)]

/-- The UTF-8 bytes of a string, as Rust's str::as_bytes exposes them. -/
def strBytes (s : String) : List ℕ :=
  (s.data.map fun c => utf8EncChar c.toNat).flatten

end Sha256

namespace DiveOps

/-- The source's sha256_hex: the "sha256:" prefix followed by the lowercase hex
SHA-256 digest of the string's UTF-8 bytes. -/
def sha256_hex (s : String) : String :=
  "sha256:" ++ Sha256.hexOfBytes (Sha256.sha256Bytes (Sha256.strBytes s))

/-- The run of main past the stdin read and hash (fn main from the serde_json
parse on): a failed parse exits 3, the three validation checks exit 4, 5 and 6,
then the core computation runs and the output is serialized (abstracted as a
predicate; failure exits 7, success prints the output and exits 0). -/
def runParsed {σ : Type} (core : Core σ) (serializeOk : OutputPayload → Bool)
    (inputHash : String) : Option InputPayload → ProgResult
  | none => ProgResult.exitWith 3
  | some p =>
    if p.segments.isEmpty then ProgResult.exitWith 4
    else if ¬ (0 ≤ p.gas.o2 ∧ p.gas.o2 ≤ 1) ∨ ¬ (0 ≤ p.gas.he ∧ p.gas.he ≤ 1) then
      ProgResult.exitWith 5
    else if p.gas.o2 + p.gas.he > 1 then ProgResult.exitWith 6
    else
      let out := computeOutput core p inputHash
      if serializeOk out then ProgResult.success out else ProgResult.exitWith 7

/-- The whole process with the stdin read result distinguished: the --version
fast path comes first (the source returns before touching stdin), a failed
stdin read exits 2, and otherwise the raw text is hashed and handed on. -/
def program {σ : Type} (core : Core σ) (args : List String)
    (parse : String → Option InputPayload) (serializeOk : OutputPayload → Bool) :
    Option String → ProgResult
  | none =>
    if versionRequested args then ProgResult.versionOut else ProgResult.exitWith 2
  | some raw =>
    if versionRequested args then ProgResult.versionOut
    else runParsed core serializeOk (sha256_hex raw) (parse raw)

/-- A degenerate core used to instantiate glue theorems on concrete runs. -/
def trivialCore : Core Unit where
  init := fun _ _ => ()
  step := fun _ _ _ _ => ()
  ceiling := fun _ => 0
  ndl := fun _ => 0
  deco := fun _ _ => ⟨[], 0⟩

/-- A core whose computed NDL exceeds the 999-minute cap. -/
def longNdlCore : Core Unit where
  init := fun _ _ => ()
  step := fun _ _ _ _ => ()
  ceiling := fun _ => 0
  ndl := fun _ => 2000
  deco := fun _ _ => ⟨[], 0⟩

/-- A core outcome that is a computation fault in the spec's sense: a positive
ceiling (deco is required) together with an empty, zero-length schedule - a
truncated schedule that understates the required decompression. -/
def faultyCore : Core Unit where
  init := fun _ _ => ()
  step := fun _ _ _ _ => ()
  ceiling := fun _ => 3
  ndl := fun _ => 0
  deco := fun _ _ => ⟨[], 0⟩

/-- The spec's end-to-end example payload: one 40 m / 25 min segment on air,
gradient factors 0.3 / 0.7. -/
def samplePayload : InputPayload :=
  ⟨[⟨40, 25⟩], ⟨21/100, 0⟩, 3/10, 7/10⟩

/-- A payload whose single segment has a negative depth. -/
def negDepthPayload : InputPayload :=
  ⟨[⟨-5, 10⟩], ⟨21/100, 0⟩, 1/2, 4/5⟩

/-- The argv of a plain run (argv[0] only, no --version). -/
def plainArgs : List String := ["diveops-deco-validate"]

/-- A parse function that ignores the raw text and returns a fixed payload;
used to instantiate glue theorems on concrete runs. -/
def constParse (p : InputPayload) : String → Option InputPayload :=
  fun _ => some p

/-- A serializer that always succeeds. -/
def serAlways : OutputPayload → Bool := fun _ => true

end DiveOps

set_option maxRecDepth 10000

namespace DiveOps

/-- The raw stdin text of the concrete runs below (its content is irrelevant:
the parse functions used with it are constant). -/
def sampleRaw : String := "x"

/-- The output of a run of the sample payload against the degenerate core. -/
def sampleOut : OutputPayload := computeOutput trivialCore samplePayload (sha256_hex sampleRaw)

/-- The output of a run of the sample payload against the long-NDL core. -/
def longOut : OutputPayload := computeOutput longNdlCore samplePayload (sha256_hex sampleRaw)

/-- A core returning a nontrivial schedule: an ascent stage, a zero-duration
stop, and a positive stop, so every stop filter is exercised. -/
def stageCore : Core Unit where
  init := fun _ _ => ()
  step := fun _ _ _ _ => ()
  ceiling := fun _ => 3
  ndl := fun _ => 0
  deco := fun _ _ =>
    ⟨[⟨DecoStageType.Ascent, 40, 6, 30⟩, ⟨DecoStageType.DecoStop, 6, 6, 0⟩,
      ⟨DecoStageType.DecoStop, 3, 3, 120⟩], 200⟩

/-- The output of a run of the sample payload against the staged core. -/
def stageOut : OutputPayload := computeOutput stageCore samplePayload (sha256_hex sampleRaw)

/-- The output of a run of the negative-depth payload. -/
def negOut : OutputPayload := computeOutput trivialCore negDepthPayload (sha256_hex sampleRaw)

/-- The output of a run of the sample payload against the faulty core. -/
def faultyOut : OutputPayload := computeOutput faultyCore samplePayload (sha256_hex sampleRaw)

/-- A minimal JSON document. -/
def jsonA : String := "\x7b\"a\":1\x7d"

/-- The same JSON document up to semantics, one whitespace byte inserted. -/
def jsonB : String := "\x7b\"a\": 1\x7d"

/-- Modelled from the spec: the tissue state, a nitrogen and helium inert-gas
partial pressure for each of the 16 ZHL-16C compartments.  The tissue model is
code of the external dive-deco crate, absent from this repository's sources,
so it is modelled from the spec (section 4.1). -/
def TissueState : Type := Fin 16 → ℝ × ℝ

/-- Modelled from the spec: the fixed per-compartment half-times and the
ambient constants.  The spec fixes that they are constants, not their numeric
values, so the development is parametric in them. -/
structure TissueParams where
  htN2 : Fin 16 → ℝ
  htHe : Fin 16 → ℝ
  surfacePressure : ℝ
  waterVapor : ℝ

/-- Modelled from the spec: the Schreiner equation for one gas in one
compartment - new pressure = alveolar pressure + (initial - alveolar)
times e^(-k t). -/
noncomputable def schreiner (pAlv p0 k t : ℝ) : ℝ :=
  pAlv + (p0 - pAlv) * Real.exp (-(k * t))

/-- Modelled from the spec: one constant-depth segment applied to every
compartment, each inert gas independently; ambient pressure from depth by the
10 m per atmosphere seawater conversion, alveolar pressure corrected for
water vapor; k = ln 2 / half-time.  Time is in minutes, the half-time unit. -/
noncomputable def stepTissue (tp : TissueParams) (st : TissueState) (depth : ℝ)
    (t : ℝ) (gas : Gas) : TissueState :=
  fun i =>
    let ambient := tp.surfacePressure + depth / 10
    let fN2 := 1 - (gas.o2 : ℝ) - (gas.he : ℝ)
    let pAlvN2 := (ambient - tp.waterVapor) * fN2
    let pAlvHe := (ambient - tp.waterVapor) * (gas.he : ℝ)
    (schreiner pAlvN2 (st i).1 (Real.log 2 / tp.htN2 i) t,
     schreiner pAlvHe (st i).2 (Real.log 2 / tp.htHe i) t)

/-- The remaining core queries (surface-equilibrium initial state, ceiling,
NDL, deco schedule), abstract: claim C9 needs only that they are functions of
the tissue state. -/
structure TissueQueries where
  initState : ℕ → ℕ → TissueState
  ceilingQ : TissueState → ℚ
  ndlQ : TissueState → ℕ
  decoQ : TissueState → List Gas → Deco

/-- The Buehlmann core as the glue drives it, assembled from the spec-modelled
segment step (the glue hands seconds; the Schreiner time unit is minutes) and
the abstract queries. -/
noncomputable def buehlmannCore (tp : TissueParams) (tq : TissueQueries) :
    Core TissueState where
  init := tq.initState
  step := fun st depth secs gas => stepTissue tp st (depth : ℝ) ((secs : ℝ) / 60) gas
  ceiling := tq.ceilingQ
  ndl := tq.ndlQ
  deco := tq.decoQ

/-- ceiling_m is the core's ceiling of the final stepped state. -/
theorem computeOutput_ceiling_m {σ : Type} (core : Core σ) (p : InputPayload) (hs : String) :
    (computeOutput core p hs).ceiling_m = core.ceiling (finalState core p) := rfl

/-- deco_required is the test ceiling > 0 on the core's ceiling. -/
theorem computeOutput_deco_required {σ : Type} (core : Core σ) (p : InputPayload) (hs : String) :
    (computeOutput core p hs).deco_required = decide (core.ceiling (finalState core p) > 0) := rfl

/-- ndl_min unfolded: absent under a ceiling, else the core's NDL capped at 999. -/
theorem computeOutput_ndl_min {σ : Type} (core : Core σ) (p : InputPayload) (hs : String) :
    (computeOutput core p hs).ndl_min =
      if core.ceiling (finalState core p) > 0 then none
      else if core.ndl (finalState core p) > 999 then some 999
      else some (core.ndl (finalState core p)) := by
  simp only [computeOutput, decide_eq_true_eq]

/-- The error field of the assembled output is always None. -/
theorem computeOutput_error {σ : Type} (core : Core σ) (p : InputPayload) (hs : String) :
    (computeOutput core p hs).error = none := rfl

/-- The output echoes the hash it was handed. -/
theorem computeOutput_input_hash {σ : Type} (core : Core σ) (p : InputPayload) (hs : String) :
    (computeOutput core p hs).input_hash = hs := rfl

/-- The stop list unfolded: the two source filters then the stop map. -/
theorem computeOutput_stops {σ : Type} (core : Core σ) (p : InputPayload) (hs : String) :
    (computeOutput core p hs).stops =
      (((core.deco (finalState core p) [gasOf p]).deco_stages.filter
          isDecoStopStage).filter (fun stg => decide (stg.duration > 0))).map stopOfStage := rfl

/-- Inversion of a successful run past the parse: the payload passed every
validation check, serialization succeeded, and the printed output is the core
computation on that payload. -/
theorem runParsed_success_inv {σ : Type} (core : Core σ) (ser : OutputPayload → Bool)
    (hash : String) (op : Option InputPayload) (out : OutputPayload)
    (h : runParsed core ser hash op = ProgResult.success out) :
    ∃ p, op = some p ∧
      p.segments.isEmpty = false ∧
      ((0 ≤ p.gas.o2 ∧ p.gas.o2 ≤ 1) ∧ (0 ≤ p.gas.he ∧ p.gas.he ≤ 1)) ∧
      ¬ p.gas.o2 + p.gas.he > 1 ∧
      ser (computeOutput core p hash) = true ∧
      out = computeOutput core p hash := by
  cases op with
  | none => simp [runParsed] at h
  | some p =>
    simp only [runParsed] at h
    refine ⟨p, rfl, ?_⟩
    split at h
    · simp at h
    · split at h
      · simp at h
      · split at h
        · simp at h
        · split at h
          · rename_i hseg hgas hsum hser
            cases h
            refine ⟨by simpa using hseg, ?_, hsum, hser, rfl⟩
            rcases not_or.mp hgas with ⟨ho, hh⟩
            exact ⟨not_not.mp ho, not_not.mp hh⟩
          · simp at h

/-- Inversion of a successful whole-program run: stdin was read, the raw text
parsed to a payload that passed validation, and the output is the core
computation on it, carrying the hash of the raw text. -/
theorem program_success_inv {σ : Type} (core : Core σ) (args : List String)
    (parse : String → Option InputPayload) (ser : OutputPayload → Bool)
    (raw : String) (out : OutputPayload)
    (h : program core args parse ser (some raw) = ProgResult.success out) :
    ∃ p, parse raw = some p ∧
      p.segments.isEmpty = false ∧
      ((0 ≤ p.gas.o2 ∧ p.gas.o2 ≤ 1) ∧ (0 ≤ p.gas.he ∧ p.gas.he ≤ 1)) ∧
      ¬ p.gas.o2 + p.gas.he > 1 ∧
      ser (computeOutput core p (sha256_hex raw)) = true ∧
      out = computeOutput core p (sha256_hex raw) := by
  simp only [program] at h
  split at h
  · simp at h
  · exact runParsed_success_inv core ser (sha256_hex raw) (parse raw) out h

/-- The sample payload is accepted and runs to success against the degenerate core. -/
theorem sample_run :
    program trivialCore plainArgs (constParse samplePayload) serAlways (some sampleRaw)
      = ProgResult.success sampleOut := by
  norm_num [program, versionRequested, plainArgs, constParse, runParsed, samplePayload,
    serAlways, sampleOut, sampleRaw]

/-- The sample payload runs to success against the long-NDL core. -/
theorem long_run :
    program longNdlCore plainArgs (constParse samplePayload) serAlways (some sampleRaw)
      = ProgResult.success longOut := by
  norm_num [program, versionRequested, plainArgs, constParse, runParsed, samplePayload,
    serAlways, longOut, sampleRaw]

/-- The sample payload runs to success against the staged core. -/
theorem stage_run :
    program stageCore plainArgs (constParse samplePayload) serAlways (some sampleRaw)
      = ProgResult.success stageOut := by
  norm_num [program, versionRequested, plainArgs, constParse, runParsed, samplePayload,
    serAlways, stageOut, sampleRaw]

/-- The negative-depth payload runs to success (nothing rejects it). -/
theorem neg_run :
    program trivialCore plainArgs (constParse negDepthPayload) serAlways (some sampleRaw)
      = ProgResult.success negOut := by
  norm_num [program, versionRequested, plainArgs, constParse, runParsed, negDepthPayload,
    serAlways, negOut, sampleRaw]

/-- The sample payload runs to success against the faulty core. -/
theorem faulty_run :
    program faultyCore plainArgs (constParse samplePayload) serAlways (some sampleRaw)
      = ProgResult.success faultyOut := by
  norm_num [program, versionRequested, plainArgs, constParse, runParsed, samplePayload,
    serAlways, faultyOut, sampleRaw]

/-- One-pass form of the source's filter-filter-map stop extraction. -/
theorem filter_stops_eq_specStops (l : List DecoStage) :
    ((l.filter isDecoStopStage).filter (fun stg => decide (stg.duration > 0))).map stopOfStage
      = specStops l := by
  induction l with
  | nil => rfl
  | cons a t ih =>
    rcases a with ⟨st, sd, ed, dur⟩
    cases st with
    | Ascent =>
      simpa [specStops, List.filter_cons, List.filterMap_cons, isDecoStopStage] using ih
    | DecoStop =>
      by_cases h2 : 0 < dur
      · simpa [specStops, List.filter_cons, List.filterMap_cons, isDecoStopStage,
          h2, stopOfStage] using ih
      · simpa [specStops, List.filter_cons, List.filterMap_cons, isDecoStopStage,
          h2] using ih

/-- The Schreiner update over zero time returns the initial pressure. -/
theorem schreiner_zero (pAlv p0 k : ℝ) : schreiner pAlv p0 k 0 = p0 := by
  unfold schreiner
  rw [mul_zero, neg_zero, Real.exp_zero, mul_one]
  ring

/-- A zero-time tissue step is the identity on the tissue state. -/
theorem stepTissue_zero (tp : TissueParams) (st : TissueState) (depth : ℝ) (gas : Gas) :
    stepTissue tp st depth 0 gas = st := by
  funext i
  simp [stepTissue, schreiner_zero]

/-- A zero-minute segment converts to zero seconds. -/
theorem secondsOfSegment_zero : secondsOfSegment 0 = 0 := by
  unfold secondsOfSegment roundHalfAway
  norm_num

/-- Replacing the segment list leaves the gas mix unchanged. -/
theorem gasOf_update (p : InputPayload) (l : List InputSegment) :
    gasOf { p with segments := l } = gasOf p := rfl

/-- Inserting a zero-duration segment anywhere leaves the final tissue state
of the spec-modelled core unchanged. -/
theorem finalState_insert_zero (tp : TissueParams) (tq : TissueQueries)
    (p : InputPayload) (pre post : List InputSegment) (d : ℚ) :
    finalState (buehlmannCore tp tq) { p with segments := pre ++ ⟨d, 0⟩ :: post }
      = finalState (buehlmannCore tp tq) { p with segments := pre ++ post } := by
  unfold finalState
  simp only [gasOf_update, List.foldl_append, List.foldl_cons]
  congr 1
  show stepTissue tp _ (d : ℝ) (((secondsOfSegment 0 : ℕ) : ℝ) / 60) (gasOf p) = _
  rw [secondsOfSegment_zero]
  norm_num [stepTissue_zero]

/-- Claim C1: for every accepted input, the output satisfies
deco_required = (ceiling_m > 0), and ndl_min is present in the output exactly
when deco_required is false (absent when a ceiling is already present). -/
theorem c1_consistency {σ : Type} (core : Core σ) (args : List String)
    (parse : String → Option InputPayload) (ser : OutputPayload → Bool)
    (raw : String) (out : OutputPayload)
    (h : program core args parse ser (some raw) = ProgResult.success out) :
    (out.deco_required = true ↔ out.ceiling_m > 0) ∧
    (out.ndl_min.isSome = true ↔ out.deco_required = false) := by
  obtain ⟨p, -, -, -, -, -, hout⟩ := program_success_inv core args parse ser raw out h
  subst hout
  constructor
  · rw [computeOutput_deco_required, computeOutput_ceiling_m]
    simp
  · rw [computeOutput_ndl_min, computeOutput_deco_required]
    by_cases hc : core.ceiling (finalState core p) > 0
    · simp [hc]
    · simp only [hc, if_false, decide_eq_false hc]
      constructor
      · intro _; rfl
      · intro _
        split <;> simp

/-- Witness for C1: the consistency instantiated on a concrete accepted run. -/
theorem c1_witness :
    (sampleOut.deco_required = true ↔ sampleOut.ceiling_m > 0) ∧
    (sampleOut.ndl_min.isSome = true ↔ sampleOut.deco_required = false) :=
  c1_consistency trivialCore plainArgs (constParse samplePayload) serAlways sampleRaw
    sampleOut sample_run

/-- Claim C2: for every accepted input with no current ceiling, the reported
ndl_min is a natural number equal to the core's NDL capped at 999; in
particular it never exceeds 999, and whenever the core's NDL exceeds 999 the
program reports exactly 999. -/
theorem c2_ndl_cap {σ : Type} (core : Core σ) (args : List String)
    (parse : String → Option InputPayload) (ser : OutputPayload → Bool)
    (raw : String) (p : InputPayload) (out : OutputPayload)
    (hp : parse raw = some p)
    (h : program core args parse ser (some raw) = ProgResult.success out)
    (hnc : ¬ core.ceiling (finalState core p) > 0) :
    out.ndl_min = some (min (core.ndl (finalState core p)) 999) ∧
    (∀ n, out.ndl_min = some n → n ≤ 999) ∧
    (core.ndl (finalState core p) > 999 → out.ndl_min = some 999) := by
  obtain ⟨p', hp', -, -, -, -, hout⟩ := program_success_inv core args parse ser raw out h
  rw [hp] at hp'
  injection hp' with hpp
  subst hpp
  subst hout
  rw [computeOutput_ndl_min]
  simp only [hnc, if_false]
  refine ⟨?_, ?_, ?_⟩
  · split <;> rename_i hgt
    · simp; omega
    · simp; omega
  · intro n hn
    split at hn <;> (injection hn with hv) <;> omega
  · intro hgt
    rw [if_pos hgt]

/-- Witness for C2: a core whose NDL is 2000 minutes is reported as 999. -/
theorem c2_witness : longOut.ndl_min = some 999 := by
  have h := c2_ndl_cap longNdlCore plainArgs (constParse samplePayload) serAlways sampleRaw
    samplePayload longOut rfl long_run (by simp [longNdlCore])
  exact h.2.2 (by norm_num [longNdlCore])

/-- Claim C3: for every accepted input, the stop list contains exactly the
deco-stop stages of the computed schedule - ascent stages excluded,
zero-duration stages excluded - each emitted as its depth in meters and its
duration converted from seconds to minutes, in schedule order; every emitted
stop has positive duration. -/
theorem c3_stop_filter {σ : Type} (core : Core σ) (args : List String)
    (parse : String → Option InputPayload) (ser : OutputPayload → Bool)
    (raw : String) (p : InputPayload) (out : OutputPayload)
    (hp : parse raw = some p)
    (h : program core args parse ser (some raw) = ProgResult.success out) :
    out.stops = specStops (core.deco (finalState core p) [gasOf p]).deco_stages ∧
    ∀ s ∈ out.stops, 0 < s.duration_min := by
  obtain ⟨p', hp', -, -, -, -, hout⟩ := program_success_inv core args parse ser raw out h
  rw [hp] at hp'
  injection hp' with hpp
  subst hpp
  subst hout
  constructor
  · rw [computeOutput_stops, filter_stops_eq_specStops]
  · intro s hs
    rw [computeOutput_stops] at hs
    simp only [List.mem_map, List.mem_filter, decide_eq_true_eq] at hs
    obtain ⟨stg, ⟨⟨-, hd⟩, rfl⟩⟩ := hs
    show 0 < (stg.duration : ℚ) / 60
    positivity

/-- Witness for C3: the stop extraction on a schedule with an ascent stage, a
zero-duration stop and a positive stop. -/
theorem c3_witness :
    stageOut.stops =
      specStops (stageCore.deco (finalState stageCore samplePayload)
        [gasOf samplePayload]).deco_stages :=
  (c3_stop_filter stageCore plainArgs (constParse samplePayload) serAlways sampleRaw
    samplePayload stageOut rfl stage_run).1

/-- Claim C4: the process exits with a distinct non-zero code for each failure
class - 2 for a stdin-read failure, 3 for malformed input, 4 for an empty
segment list, 5 for gas fractions outside [0,1], 6 for gas fractions summing
over 1, 7 for an output-serialization failure - and exits 0 on success. -/
theorem c4_exit_codes {σ : Type} (core : Core σ) (args : List String)
    (parse : String → Option InputPayload) (ser : OutputPayload → Bool)
    (hv : ¬ versionRequested args) :
    (program core args parse ser none = ProgResult.exitWith 2) ∧
    (∀ raw, parse raw = none →
      program core args parse ser (some raw) = ProgResult.exitWith 3) ∧
    (∀ raw p, parse raw = some p → p.segments.isEmpty = true →
      program core args parse ser (some raw) = ProgResult.exitWith 4) ∧
    (∀ raw p, parse raw = some p → p.segments.isEmpty = false →
      (¬ (0 ≤ p.gas.o2 ∧ p.gas.o2 ≤ 1) ∨ ¬ (0 ≤ p.gas.he ∧ p.gas.he ≤ 1)) →
      program core args parse ser (some raw) = ProgResult.exitWith 5) ∧
    (∀ raw p, parse raw = some p → p.segments.isEmpty = false →
      (0 ≤ p.gas.o2 ∧ p.gas.o2 ≤ 1) → (0 ≤ p.gas.he ∧ p.gas.he ≤ 1) →
      p.gas.o2 + p.gas.he > 1 →
      program core args parse ser (some raw) = ProgResult.exitWith 6) ∧
    (∀ raw p, parse raw = some p → p.segments.isEmpty = false →
      (0 ≤ p.gas.o2 ∧ p.gas.o2 ≤ 1) → (0 ≤ p.gas.he ∧ p.gas.he ≤ 1) →
      ¬ p.gas.o2 + p.gas.he > 1 →
      ser (computeOutput core p (sha256_hex raw)) = false →
      program core args parse ser (some raw) = ProgResult.exitWith 7) ∧
    (∀ stdin out, program core args parse ser stdin = ProgResult.success out →
      exitCode (program core args parse ser stdin) = 0) ∧
    (List.Pairwise (fun a b => a ≠ b) [2, 3, 4, 5, 6, 7] ∧
      ∀ c ∈ [2, 3, 4, 5, 6, 7], c ≠ (0 : ℕ)) := by
  refine ⟨?_, ?_, ?_, ?_, ?_, ?_, ?_, by decide⟩
  · simp only [program]
    rw [if_neg hv]
  · intro raw hpn
    simp only [program]
    rw [if_neg hv, hpn]
    rfl
  · intro raw p hp hempty
    simp only [program]
    rw [if_neg hv, hp]
    simp only [runParsed]
    rw [if_pos hempty]
  · intro raw p hp hempty hbad
    simp only [program]
    rw [if_neg hv, hp]
    simp only [runParsed]
    rw [if_neg (by simp [hempty]), if_pos hbad]
  · intro raw p hp hempty ho hh hsum
    simp only [program]
    rw [if_neg hv, hp]
    simp only [runParsed]
    rw [if_neg (by simp [hempty]),
      if_neg (not_or.mpr ⟨not_not.mpr ho, not_not.mpr hh⟩), if_pos hsum]
  · intro raw p hp hempty ho hh hsum hser
    simp only [program]
    rw [if_neg hv, hp]
    simp only [runParsed]
    rw [if_neg (by simp [hempty]),
      if_neg (not_or.mpr ⟨not_not.mpr ho, not_not.mpr hh⟩), if_neg hsum,
      if_neg (by simp [hser])]
  · intro stdin out h
    rw [h]
    rfl

/-- Witness for C4: exit 2 on a failed stdin read, exit 3 on a failed parse. -/
theorem c4_witness :
    program trivialCore plainArgs (fun _ => none) serAlways none = ProgResult.exitWith 2 ∧
    program trivialCore plainArgs (fun _ => none) serAlways (some sampleRaw)
      = ProgResult.exitWith 3 := by
  have h := c4_exit_codes trivialCore plainArgs (fun _ => none) serAlways (by decide)
  exact ⟨h.1, h.2.1 sampleRaw rfl⟩

/-- Counterexample to claim C5: an input whose single segment has depth -5 m
is accepted (the run succeeds, nothing rejects it), and the glue passes the
pair (-5, 600 s) straight to the core's step - so segments are not validated
for negative depth and the core is invoked with a negative depth. -/
theorem c5_counterexample :
    isSuccess (program trivialCore plainArgs (constParse negDepthPayload) serAlways
      (some sampleRaw)) = true ∧
    ((-5 : ℚ), (600 : ℕ)) ∈ stepCalls negDepthPayload := by
  constructor
  · rw [neg_run]; rfl
  · have h600 : secondsOfSegment 10 = 600 := by
      unfold secondsOfSegment roundHalfAway
      rw [if_pos (by norm_num)]
      norm_num
      rfl
    simp [stepCalls, negDepthPayload, h600]

/-- Claim C5 as amended: validation before the core checks only that the
segment list is non-empty and that the gas fractions are in range with sum at
most 1; segment depths and durations are not sign-checked - every accepted
payload's segments reach the core as (depth, seconds) pairs with the depth
unmodified, and a non-positive duration reaches the core only as 0 seconds
through the saturating float-to-usize cast. -/
theorem c5_validation_scope {σ : Type} (core : Core σ) (args : List String)
    (parse : String → Option InputPayload) (ser : OutputPayload → Bool)
    (raw : String) (p : InputPayload) (out : OutputPayload)
    (hp : parse raw = some p)
    (h : program core args parse ser (some raw) = ProgResult.success out) :
    (p.segments ≠ [] ∧
      (0 ≤ p.gas.o2 ∧ p.gas.o2 ≤ 1) ∧ (0 ≤ p.gas.he ∧ p.gas.he ≤ 1) ∧
      p.gas.o2 + p.gas.he ≤ 1) ∧
    stepCalls p = p.segments.map (fun s => (s.depth_m, secondsOfSegment s.duration_min)) ∧
    (∀ q : ℚ, q ≤ 0 → secondsOfSegment q = 0) := by
  obtain ⟨p', hp', hseg, hgas, hsum, -, -⟩ := program_success_inv core args parse ser raw out h
  rw [hp] at hp'
  injection hp' with hpp
  subst hpp
  refine ⟨⟨by simpa using hseg, hgas.1, hgas.2, not_lt.mp hsum⟩, rfl, ?_⟩
  intro q hq
  unfold secondsOfSegment roundHalfAway
  have h60 : q * 60 ≤ 0 := by nlinarith
  split
  · rename_i hge
    have hz : q * 60 = 0 := le_antisymm h60 hge
    rw [hz]
    norm_num
  · rw [Int.toNat_eq_zero, neg_nonpos]
    apply Int.floor_nonneg.mpr
    nlinarith

/-- Witness for C5 as amended: the accepted negative-depth payload satisfies
the amended description, and a segment of -3 minutes becomes 0 seconds. -/
theorem c5_amended_witness :
    (negDepthPayload.segments ≠ [] ∧
      (0 ≤ negDepthPayload.gas.o2 ∧ negDepthPayload.gas.o2 ≤ 1) ∧
      (0 ≤ negDepthPayload.gas.he ∧ negDepthPayload.gas.he ≤ 1) ∧
      negDepthPayload.gas.o2 + negDepthPayload.gas.he ≤ 1) ∧
    stepCalls negDepthPayload =
      negDepthPayload.segments.map
        (fun s => (s.depth_m, secondsOfSegment s.duration_min)) ∧
    secondsOfSegment (-3) = 0 := by
  have h := c5_validation_scope trivialCore plainArgs (constParse negDepthPayload) serAlways
    sampleRaw negDepthPayload negOut rfl neg_run
  exact ⟨h.1, h.2.1, h.2.2 (-3) (by norm_num)⟩

/-- Claim C6: for gf_low and gf_high given as fractions in [0,1], the glue's
conversion to an integer percent never leaves 0-100 (the result is a natural
number, so the lower bound is by type), and the converted percents are
exactly what the core's model constructor receives. -/
theorem c6_gf_percent_range (g : ℚ) (h0 : 0 ≤ g) (h1 : g ≤ 1) :
    gfPercent g ≤ 100 ∧
    (∀ (σ : Type) (core : Core σ) (p : InputPayload),
      finalState core p = p.segments.foldl
        (fun m seg => core.step m seg.depth_m (secondsOfSegment seg.duration_min) (gasOf p))
        (core.init (gfPercent p.gf_low) (gfPercent p.gf_high))) := by
  constructor
  · unfold gfPercent roundHalfAway
    rw [if_pos (by positivity : (0:ℚ) ≤ g * 100)]
    have hle : ⌊g * 100 + 1/2⌋ ≤ 100 := by
      have hb : g * 100 + 1/2 ≤ (100 : ℚ) + 1/2 := by nlinarith
      calc ⌊g * 100 + 1/2⌋ ≤ ⌊(100:ℚ) + 1/2⌋ := Int.floor_le_floor hb
        _ = 100 := by norm_num
    have ht : (⌊g * 100 + 1/2⌋).toNat ≤ 100 := by
      rw [Int.toNat_le]
      exact_mod_cast hle
    omega
  · intro σ core p
    rfl

/-- Witness for C6: the bound at gf = 1/2, and the pass-through on a concrete
core and payload. -/
theorem c6_witness :
    gfPercent (1/2) ≤ 100 ∧
    finalState trivialCore samplePayload = samplePayload.segments.foldl
      (fun m seg => trivialCore.step m seg.depth_m (secondsOfSegment seg.duration_min)
        (gasOf samplePayload))
      (trivialCore.init (gfPercent samplePayload.gf_low) (gfPercent samplePayload.gf_high)) :=
  ⟨(c6_gf_percent_range (1/2) (by norm_num) (by norm_num)).1,
   (c6_gf_percent_range (1/2) (by norm_num) (by norm_num)).2 Unit trivialCore samplePayload⟩

/-- Counterexample to claim C7: a core outcome that is a computation fault in
the spec's sense - deco required (positive ceiling) yet an empty, zero-length
schedule, i.e. a truncated schedule understating required decompression - is
printed as ordinary success: deco_required true, no stops, tts 0, error None,
exit code 0.  No distinct non-zero exit status exists for core faults. -/
theorem c7_counterexample :
    program faultyCore plainArgs (constParse samplePayload) serAlways (some sampleRaw)
      = ProgResult.success faultyOut ∧
    faultyOut.deco_required = true ∧
    faultyOut.stops = [] ∧
    faultyOut.tts_min = 0 ∧
    faultyOut.error = none ∧
    exitCode (program faultyCore plainArgs (constParse samplePayload) serAlways
      (some sampleRaw)) = 0 := by
  refine ⟨faulty_run, ?_, ?_, ?_, rfl, ?_⟩
  · rw [faultyOut, computeOutput_deco_required]
    simp [faultyCore]
  · rfl
  · show ((0 : ℕ) : ℚ) / 60 = 0
    norm_num
  · rw [faulty_run]
    rfl

/-- Claim C7 as amended: the glue has no fault channel from the core - it
destructures the deco result unconditionally, the output's error field is
always None and its warnings always empty, and every run that prints an
output exits 0, whatever the core returned. -/
theorem c7_no_fault_channel {σ : Type} (core : Core σ) (p : InputPayload) (hs : String) :
    (computeOutput core p hs).error = none ∧
    (computeOutput core p hs).warnings = [] ∧
    (∀ (args : List String) (parse : String → Option InputPayload)
      (ser : OutputPayload → Bool) (stdin : Option String) (out : OutputPayload),
      program core args parse ser stdin = ProgResult.success out →
      out.error = none ∧ exitCode (program core args parse ser stdin) = 0) := by
  refine ⟨rfl, rfl, ?_⟩
  intro args parse ser stdin out h
  constructor
  · cases stdin with
    | none =>
      simp only [program] at h
      split at h <;> simp at h
    | some raw =>
      obtain ⟨q, -, -, -, -, -, hout⟩ := program_success_inv core args parse ser raw out h
      rw [hout, computeOutput_error]
  · rw [h]
    rfl

/-- Witness for C7 as amended: the faulty-core run carries error None and
exits 0. -/
theorem c7_amended_witness :
    (computeOutput faultyCore samplePayload (sha256_hex sampleRaw)).error = none ∧
    (computeOutput faultyCore samplePayload (sha256_hex sampleRaw)).warnings = [] ∧
    faultyOut.error = none ∧
    exitCode (program faultyCore plainArgs (constParse samplePayload) serAlways
      (some sampleRaw)) = 0 := by
  have h := c7_no_fault_channel faultyCore samplePayload (sha256_hex sampleRaw)
  have h2 := h.2.2 plainArgs (constParse samplePayload) serAlways (some sampleRaw)
    faultyOut faulty_run
  exact ⟨h.1, h.2.1, h2.1, h2.2⟩

/-- Claim C8: the program is deterministic - theembedded run is a pure
function of its input, so identical inputs yield identical results, and in
particular identical ceiling_m, tts_min, ndl_min and stop lists. -/
theorem c8_deterministic {σ : Type} (core : Core σ) (args : List String)
    (parse : String → Option InputPayload) (ser : OutputPayload → Bool)
    (stdin₁ stdin₂ : Option String) (h : stdin₁ = stdin₂) :
    program core args parse ser stdin₁ = program core args parse ser stdin₂ ∧
    (∀ out₁ out₂, program core args parse ser stdin₁ = ProgResult.success out₁ →
      program core args parse ser stdin₂ = ProgResult.success out₂ →
      out₁.ceiling_m = out₂.ceiling_m ∧ out₁.tts_min = out₂.tts_min ∧
      out₁.ndl_min = out₂.ndl_min ∧ out₁.stops = out₂.stops) := by
  subst h
  refine ⟨rfl, ?_⟩
  intro out₁ out₂ h₁ h₂
  rw [h₁] at h₂
  injection h₂ with ho
  rw [ho]
  exact ⟨rfl, rfl, rfl, rfl⟩

/-- Witness for C8: two identical concrete runs agree on all four fields. -/
theorem c8_witness :
    program trivialCore plainArgs (constParse samplePayload) serAlways (some sampleRaw)
      = program trivialCore plainArgs (constParse samplePayload) serAlways (some sampleRaw) ∧
    sampleOut.ceiling_m = sampleOut.ceiling_m ∧ sampleOut.tts_min = sampleOut.tts_min ∧
    sampleOut.ndl_min = sampleOut.ndl_min ∧ sampleOut.stops = sampleOut.stops := by
  have h := c8_deterministic trivialCore plainArgs (constParse samplePayload) serAlways
    (some sampleRaw) (some sampleRaw) rfl
  exact ⟨h.1, h.2 sampleOut sampleOut sample_run sample_run⟩

/-- Claim C9: a zero-duration segment is a no-op - the spec-modelled tissue
step over zero time is the identity on the tissue state, and inserting a
zero-duration segment anywhere in the input sequence changes none of
ceiling_m, ndl_min, tts_min, stops, deco_required. -/
theorem c9_zero_duration_noop (tp : TissueParams) (tq : TissueQueries)
    (p : InputPayload) (pre post : List InputSegment) (d : ℚ) (hs : String) :
    (∀ (st : TissueState) (depth : ℝ) (gas : Gas), stepTissue tp st depth 0 gas = st) ∧
    (computeOutput (buehlmannCore tp tq) { p with segments := pre ++ ⟨d, 0⟩ :: post } hs).ceiling_m
      = (computeOutput (buehlmannCore tp tq) { p with segments := pre ++ post } hs).ceiling_m ∧
    (computeOutput (buehlmannCore tp tq) { p with segments := pre ++ ⟨d, 0⟩ :: post } hs).ndl_min
      = (computeOutput (buehlmannCore tp tq) { p with segments := pre ++ post } hs).ndl_min ∧
    (computeOutput (buehlmannCore tp tq) { p with segments := pre ++ ⟨d, 0⟩ :: post } hs).tts_min
      = (computeOutput (buehlmannCore tp tq) { p with segments := pre ++ post } hs).tts_min ∧
    (computeOutput (buehlmannCore tp tq) { p with segments := pre ++ ⟨d, 0⟩ :: post } hs).stops
      = (computeOutput (buehlmannCore tp tq) { p with segments := pre ++ post } hs).stops ∧
    (computeOutput (buehlmannCore tp tq) { p with segments := pre ++ ⟨d, 0⟩ :: post } hs).deco_required
      = (computeOutput (buehlmannCore tp tq) { p with segments := pre ++ post } hs).deco_required := by
  refine ⟨stepTissue_zero tp, ?_, ?_, ?_, ?_, ?_⟩
  · rw [computeOutput_ceiling_m, computeOutput_ceiling_m, finalState_insert_zero]
  · rw [computeOutput_ndl_min, computeOutput_ndl_min, finalState_insert_zero]
  · show ((buehlmannCore tp tq).deco (finalState _ _) _).tts / 60 = (_ : ℚ)
    rw [finalState_insert_zero]
    rfl
  · rw [computeOutput_stops, computeOutput_stops, finalState_insert_zero]
    rfl
  · rw [computeOutput_deco_required, computeOutput_deco_required, finalState_insert_zero]

/-- Claim C10: for every accepted input, input_hash is the string "sha256:"
followed by the lowercase hex SHA-256 digest of the exact raw stdin bytes,
computed before parsing; equal raw bytes give equal hashes, and the two
whitespace-variant JSON documents (equal as JSON, different by one byte)
receive different hashes. -/
theorem c10_input_hash {σ : Type} (core : Core σ) (args : List String)
    (parse : String → Option InputPayload) (ser : OutputPayload → Bool)
    (raw : String) (out : OutputPayload)
    (h : program core args parse ser (some raw) = ProgResult.success out) :
    out.input_hash
      = "sha256:" ++ Sha256.hexOfBytes (Sha256.sha256Bytes (Sha256.strBytes raw)) ∧
    (∀ r₁ r₂ : String, r₁ = r₂ → sha256_hex r₁ = sha256_hex r₂) ∧
    sha256_hex jsonA ≠ sha256_hex jsonB := by
  obtain ⟨p, -, -, -, -, -, hout⟩ := program_success_inv core args parse ser raw out h
  refine ⟨?_, ?_, ?_⟩
  · rw [hout, computeOutput_input_hash]
    rfl
  · intro r₁ r₂ hr
    rw [hr]
  · decide

/-- Witness for C10: the hash field of a concrete accepted run, and the
distinctness of the two concrete whitespace-variant digests. -/
theorem c10_witness :
    sampleOut.input_hash
      = "sha256:" ++ Sha256.hexOfBytes (Sha256.sha256Bytes (Sha256.strBytes sampleRaw)) ∧
    sha256_hex jsonA ≠ sha256_hex jsonB := by
  have h := c10_input_hash trivialCore plainArgs (constParse samplePayload) serAlways
    sampleRaw sampleOut sample_run
  exact ⟨h.1, h.2.2⟩

end DiveOps
